import Mathlib

/-!
Shallow embedding of `src/rsn-backend/server.js` (an Express backend relaying
two form submissions by email) and proofs about its request handlers.

Modelling conventions:
* JS strings that may be `undefined` are `Option String`; JS truthiness of a
  string-or-undefined value is `truthy` (`undefined` and `""` are falsy).
* `x || d` on such values is `jstr x d`; template interpolation of a
  possibly-undefined value is `tmplStr` (JS renders `undefined` as the text
  "undefined").
* Each handler is a pure function from the request data, the environment and
  the outcome of the (single) `transporter.sendMail` call to the HTTP response
  together with the list of mail-send invocations it performed.
* File bytes (`req.file.buffer`) are `List Nat`.
-/

namespace RSN

/-- JS truthiness of a string-or-undefined value: `undefined` and the empty
string are falsy, every other string is truthy. -/
def truthy : Option String → Bool
  | none => false
  | some s => s != ""

/-- JS `x || d` on a string-or-undefined value `x` with a string default. -/
def jstr (x : Option String) (d : String) : String :=
  match x with
  | none => d
  | some s => if s == "" then d else s

/-- Template-literal interpolation of a possibly-undefined value: JS renders
`undefined` as the text "undefined". -/
def tmplStr : Option String → String
  | none => "undefined"
  | some s => s

/-- JS `a || b` on two string-or-undefined values (used for
`process.env.HR_EMAIL || process.env.EMAIL_USER`). -/
def orFalsy (a b : Option String) : Option String :=
  if truthy a then a else b

/-- The own properties of the object literal inside `formatPosition`
(server.js lines 263-267). -/
def positionMap : List (String × String) :=
  [("chartered_accountant", "Chartered Accountant"),
   ("articleship", "Articleship"),
   ("others", "Others")]

/-- A JS value that `map[value] || value` can produce: a string, a native
function inherited from `Object.prototype` (carrying the name it reports),
or the `Object.prototype` object itself (reached through the `__proto__`
accessor). -/
inductive JsStringOr
  | str (s : String)
  | fn (name : String)
  | obj
deriving DecidableEq

/-- The `Object.prototype` function-valued members an object literal
inherits, paired with the function name each reports (the `constructor`
member is the `Object` function). -/
def objectProtoFunctionNames : List (String × String) :=
  [("constructor", "Object"),
   ("hasOwnProperty", "hasOwnProperty"),
   ("isPrototypeOf", "isPrototypeOf"),
   ("propertyIsEnumerable", "propertyIsEnumerable"),
   ("toLocaleString", "toLocaleString"),
   ("toString", "toString"),
   ("valueOf", "valueOf"),
   ("__defineGetter__", "__defineGetter__"),
   ("__defineSetter__", "__defineSetter__"),
   ("__lookupGetter__", "__lookupGetter__"),
   ("__lookupSetter__", "__lookupSetter__")]

/-- The member an object literal inherits from `Object.prototype` under the
given key, if any: the native functions, plus the `__proto__` accessor which
yields `Object.prototype` itself. -/
def objectProtoMember (key : String) : Option JsStringOr :=
  match objectProtoFunctionNames.lookup key with
  | some fname => some (JsStringOr.fn fname)
  | none => if key == "__proto__" then some JsStringOr.obj else none

/-- JS property access `map[value]` on the object literal: an own property
wins, otherwise the lookup walks the prototype chain to `Object.prototype`,
otherwise the result is `undefined` (`none`). -/
def mapGet (value : String) : Option JsStringOr :=
  match positionMap.lookup value with
  | some label => some (JsStringOr.str label)
  | none => objectProtoMember value

/-- JS truthiness of a looked-up value: functions and objects are truthy, a
string is truthy unless empty. -/
def jsTruthy : JsStringOr → Bool
  | JsStringOr.str s => s != ""
  | JsStringOr.fn _ => true
  | JsStringOr.obj => true

/-- `formatPosition` (server.js lines 262-269): `map[value] || value`, where
`map[value]` is JS property access including the prototype chain. -/
def formatPosition (value : String) : JsStringOr :=
  match mapGet value with
  | some v => if jsTruthy v then v else JsStringOr.str value
  | none => JsStringOr.str value

/-- Template-literal rendering of such a value: strings render as themselves,
native functions as V8 prints them, objects as "[object Object]". -/
def renderJs : JsStringOr → String
  | JsStringOr.str s => s
  | JsStringOr.fn name => "function " ++ name ++ "() \x7b [native code] \x7d"
  | JsStringOr.obj => "[object Object]"

/-- The static CORS allow-list (server.js lines 16-21). -/
def allowedOrigins : List String :=
  ["http://localhost:4200",
   "https://rsn-frontend.vercel.app",
   "https://rsn-omega.vercel.app",
   "https://rsn-production-07e6.up.railway.app"]

/-- The message of the Error passed to the CORS callback on rejection
(server.js line 29). -/
def corsBlockedMsg : String :=
  "The CORS policy for this site does not allow access from the specified Origin."

/-- Outcome of the `cors` origin callback: either the request is allowed or it
is rejected with the policy error message (which is also what gets logged). -/
inductive CorsDecision
  | allow
  | deny (msg : String)
deriving DecidableEq

/-- The `origin` callback of the cors middleware (server.js lines 24-34).
The `if (!origin)` guard on line 26 allows every falsy origin — a missing
Origin header and a present-but-empty one alike; a remaining origin whose
`indexOf` in the allow-list signals "not found" (modelled as `= length`,
JS `=== -1`) is denied with the policy error. -/
def corsOriginCheck (origin : Option String) : CorsDecision :=
  if !truthy origin then CorsDecision.allow
  else
    match origin with
    | none => CorsDecision.allow
    | some o =>
      if allowedOrigins.indexOf o == allowedOrigins.length then
        CorsDecision.deny corsBlockedMsg
      else
        CorsDecision.allow

/-- An uploaded file as produced by multer memory storage: original client
file name (possibly absent) and the raw bytes held in memory. -/
structure UploadedFile where
  originalname : Option String
  buffer : List Nat
deriving DecidableEq

/-- One entry of `mailOptions.attachments`. -/
structure Attachment where
  filename : String
  content : List Nat
deriving DecidableEq

/-- The `mailOptions` object handed to `transporter.sendMail`.  `from` is a
reserved word in Lean, hence `fromAddr`/`toAddr`. -/
structure MailOptions where
  fromAddr : String
  toAddr : Option String
  replyTo : Option String
  subject : String
  html : String
  attachments : List Attachment
deriving DecidableEq

/-- A JSON response: HTTP status plus the body fields the server ever sets
(`success`, `message`, the development-only `error` field of the careers
handler, and the health check timestamp). -/
structure Response where
  status : Nat
  success : Option Bool
  message : String
  error : Option String
  timestamp : Option String
deriving DecidableEq

/-- The environment variables the server reads. -/
structure Env where
  emailUser : Option String
  hrEmail : Option String
  nodeEnv : Option String

/-- The text fields of `req.body` used by either handler; each is absent or a
string. -/
structure Body where
  name : Option String
  email : Option String
  phone : Option String
  position : Option String
  subject : Option String
  preferredContact : Option String
  message : Option String

/-- An incoming HTTP request as the routing layer sees it. -/
structure Request where
  method : String
  path : String
  origin : Option String
  file : Option UploadedFile
  body : Body

/-! Literal text of the careers HTML template (server.js lines 127-146),
split at the `interpolation` holes. -/

def careerHtmlChunk0 : String :=
  "\n                <div style=\"max-width: 700px; margin: 0 auto; padding: 20px; font-family: Arial, sans-serif;\">\n                    <h2 style=\"color: #333; border-bottom: 2px solid #000; padding-bottom: 10px;\">\n                        New Job Application - "

def careerHtmlChunk1 : String :=
  "\n                    </h2>\n                    <div style=\"margin: 20px 0;\">\n                        <p><strong>Name:</strong> "

def careerHtmlChunk2 : String :=
  "</p>\n                        <p><strong>Email:</strong> "

def careerHtmlChunk3 : String :=
  "</p>\n                        <p><strong>Phone:</strong> "

def careerHtmlChunk4 : String :=
  "</p>\n                        <p><strong>Position:</strong> "

def careerHtmlChunk5 : String :=
  "</p>\n                        <p><strong>Message:</strong></p>\n                        <div style=\"background: #f5f5f5; padding: 15px; border-left: 4px solid #000; margin: 10px 0;\">\n                            "

def careerHtmlChunk6 : String :=
  "\n                        </div>\n                    </div>\n                    <p style=\"color: #666; font-size: 12px; margin-top: 30px;\">\n                        This application was submitted via RSN Career Portal\n                    </p>\n                </div>\n            "

/-- The careers email HTML body (server.js lines 127-146). -/
def careerHtml (body : Body) : String :=
  careerHtmlChunk0 ++ renderJs (formatPosition (tmplStr body.position))
  ++ careerHtmlChunk1 ++ tmplStr body.name
  ++ careerHtmlChunk2 ++ tmplStr body.email
  ++ careerHtmlChunk3 ++ tmplStr body.phone
  ++ careerHtmlChunk4 ++ renderJs (formatPosition (tmplStr body.position))
  ++ careerHtmlChunk5 ++ jstr body.message ("No message provided")
  ++ careerHtmlChunk6

/-! Literal text of the contact HTML template (server.js lines 195-212),
split at the `interpolation` holes. -/

def contactHtmlChunk0 : String :=
  "\n                <div style=\"max-width: 700px; margin: 0 auto; padding: 20px; font-family: Arial, sans-serif;\">\n                    <h2 style=\"color: #333; border-bottom: 2px solid #000; padding-bottom: 10px;\">\n                        New Contact Form Submission\n                    </h2>\n                    <div style=\"margin: 20px 0;\">\n                        <p><strong>Name:</strong> "

def contactHtmlChunk1 : String :=
  "</p>\n                        <p><strong>Email:</strong> "

def contactHtmlChunk2 : String :=
  "</p>\n                        <p><strong>Phone:</strong> "

def contactHtmlChunk3 : String :=
  "</p>\n                        <p><strong>Subject:</strong> "

def contactHtmlChunk4 : String :=
  "</p>\n                        <p><strong>Preferred Contact:</strong> "

def contactHtmlChunk5 : String :=
  "</p>\n                        <p><strong>Message:</strong></p>\n                        <div style=\"background: #f5f5f5; padding: 15px; border-left: 4px solid #000; margin: 10px 0;\">\n                            "

def contactHtmlChunk6 : String :=
  "\n                        </div>\n                    </div>\n                </div>\n            "

/-- The contact email HTML body (server.js lines 195-212). -/
def contactHtml (body : Body) : String :=
  contactHtmlChunk0 ++ tmplStr body.name
  ++ contactHtmlChunk1 ++ tmplStr body.email
  ++ contactHtmlChunk2 ++ jstr body.phone ("Not provided")
  ++ contactHtmlChunk3 ++ jstr body.subject ("General Inquiry")
  ++ contactHtmlChunk4 ++ jstr body.preferredContact ("Email")
  ++ contactHtmlChunk5 ++ tmplStr body.message
  ++ contactHtmlChunk6

/-- The `mailOptions` built by the careers handler (server.js lines 123-153). -/
def careerMail (env : Env) (f : UploadedFile) (body : Body) : MailOptions :=
  { fromAddr := "\"RSN Career Portal\" <" ++ tmplStr env.emailUser ++ ">"
    toAddr := orFalsy env.hrEmail env.emailUser
    replyTo := none
    subject := "Job Application: " ++ tmplStr body.name ++ " - "
      ++ renderJs (formatPosition (tmplStr body.position))
    html := careerHtml body
    attachments := [{ filename := jstr f.originalname ("resume.pdf"),
                      content := f.buffer }] }

/-- The `mailOptions` built by the contact handler (server.js lines 190-213). -/
def contactMail (env : Env) (body : Body) : MailOptions :=
  { fromAddr := "\"RSN Website Contact\" <" ++ tmplStr env.emailUser ++ ">"
    toAddr := orFalsy env.hrEmail env.emailUser
    replyTo := body.email
    subject := "Contact Form: " ++ jstr body.subject ("New Inquiry")
    html := contactHtml body
    attachments := [] }

/-- The careers handler `app.post` at `/api/careers/apply` (server.js lines
98-172).  `send` is the outcome of the one `transporter.sendMail` call
(`Except.error e` means it threw with message `e`); the second component of
the result lists the sendMail invocations made while handling the request. -/
def careersApply (env : Env) (file : Option UploadedFile) (body : Body)
    (send : Except String Unit) : Response × List MailOptions :=
  match file with
  | none =>
    ({ status := 400, success := some false, message := "Resume file is required",
       error := none, timestamp := none }, [])
  | some f =>
    if !truthy body.name || !truthy body.email || !truthy body.phone
        || !truthy body.position then
      ({ status := 400, success := some false, message := "Missing required fields",
         error := none, timestamp := none }, [])
    else
      match send with
      | Except.ok _ =>
        ({ status := 200, success := some true,
           message := "Application submitted successfully",
           error := none, timestamp := none }, [careerMail env f body])
      | Except.error e =>
        ({ status := 500, success := some false,
           message := "Failed to process application",
           error := if env.nodeEnv == some ("development") then some e else none,
           timestamp := none }, [careerMail env f body])

/-- The contact handler `app.post` at `/api/contact` (server.js lines
177-230). -/
def contactHandler (env : Env) (body : Body) (send : Except String Unit) :
    Response × List MailOptions :=
  if !truthy body.name || !truthy body.email || !truthy body.message then
    ({ status := 400, success := some false,
       message := "Name, email, and message are required",
       error := none, timestamp := none }, [])
  else
    match send with
    | Except.ok _ =>
      ({ status := 200, success := some true, message := "Message sent successfully",
         error := none, timestamp := none }, [contactMail env body])
    | Except.error _ =>
      ({ status := 500, success := some false, message := "Failed to send message",
         error := none, timestamp := none }, [contactMail env body])

/-- Which registered route (in registration order), if any, an incoming
method/path pair hits; everything else falls through to the `*` 404 handler
(server.js lines 76, 84, 98, 177, 245). -/
inductive RouteMatch
  | health
  | root
  | careers
  | contact
  | notFound
deriving DecidableEq

/-- Express route matching for the four registered routes. -/
def matchRoute (method path : String) : RouteMatch :=
  if method == "GET" && path == "/api/health" then RouteMatch.health
  else if method == "GET" && path == "/" then RouteMatch.root
  else if method == "POST" && path == "/api/careers/apply" then RouteMatch.careers
  else if method == "POST" && path == "/api/contact" then RouteMatch.contact
  else RouteMatch.notFound

/-- The whole request/response surface of the server: route the request, run
the matched handler (`now` is the health-check timestamp).  The root
descriptor's `endpoints` object is elided (only its `message` is modelled);
no claim concerns it. -/
def server (env : Env) (now : String) (req : Request) (send : Except String Unit) :
    Response × List MailOptions :=
  match matchRoute req.method req.path with
  | RouteMatch.health =>
    ({ status := 200, success := some true, message := "Backend is running",
       error := none, timestamp := some now }, [])
  | RouteMatch.root =>
    ({ status := 200, success := none, message := "RSN Backend API",
       error := none, timestamp := none }, [])
  | RouteMatch.careers => careersApply env req.file req.body send
  | RouteMatch.contact => contactHandler env req.body send
  | RouteMatch.notFound =>
    ({ status := 404, success := some false, message := "Endpoint not found",
       error := none, timestamp := none }, [])

/-! Concrete sample data used by the witness theorems. -/

/-- A sample environment: credentials set, no HR_EMAIL, NODE_ENV unset. -/
def envEx : Env :=
  { emailUser := some ("careers@rsn.example"), hrEmail := none, nodeEnv := none }

/-- A sample environment running with NODE_ENV=development. -/
def envDev : Env :=
  { emailUser := some ("careers@rsn.example"), hrEmail := none,
    nodeEnv := some ("development") }

/-- A sample fully-populated career application body. -/
def bodyFull : Body :=
  { name := some ("A"), email := some ("a@x.com"), phone := some ("12345"),
    position := some ("others"), subject := none, preferredContact := none,
    message := some ("hi") }

/-- The contact body of the spec's concrete scenario: only name, email and
message are given. -/
def contactBodyMin : Body :=
  { name := some ("A"), email := some ("a@x.com"), phone := none,
    position := none, subject := none, preferredContact := none,
    message := some ("hi") }

/-- An empty request body. -/
def bodyEmpty : Body :=
  { name := none, email := none, phone := none, position := none,
    subject := none, preferredContact := none, message := none }

/-- A body whose `name` field is present but the empty string. -/
def bodyEmptyName : Body :=
  { name := some (""), email := some ("a@x.com"), phone := some ("12345"),
    position := some ("others"), subject := none, preferredContact := none,
    message := some ("hi") }

/-- A sample uploaded resume with a client-supplied file name. -/
def fileEx : UploadedFile :=
  { originalname := some ("cv.pdf"), buffer := [37, 80, 68, 70] }

/-- A sample uploaded resume whose original name is the empty string. -/
def fileNoName : UploadedFile :=
  { originalname := some (""), buffer := [1, 2, 3] }

/-- A request that matches no registered route. -/
def reqUnmatched : Request :=
  { method := "DELETE", path := "/nope", origin := none, file := none,
    body := bodyEmpty }

/-- The fragment the contact email body contains when `preferredContact` is
absent. -/
def prefContactEmailHtml : String :=
  "<p><strong>Preferred Contact:</strong> Email</p>"

/-- String append is definitionally append of the underlying character
lists. -/
theorem string_data_append (s t : String) : (s ++ t).data = s.data ++ t.data :=
  rfl

/-- String append is associative. -/
theorem string_append_assoc (a b c : String) : (a ++ b) ++ c = a ++ (b ++ c) :=
  congrArg String.mk (List.append_assoc a.data b.data c.data)

/-- A list that occurs inside the middle block of a concatenation occurs in
the whole concatenation. -/
theorem within_append_middle {α : Type} (t a m b : List α) (h : t <:+: m) :
    t <:+: a ++ (m ++ b) := by
  obtain ⟨s, u, hsu⟩ := h
  exact ⟨a ++ s, u ++ b, by rw [← hsu]; simp [List.append_assoc]⟩

/-- C1: for every career-application request in which the attachment is
missing or any of the fields name, email, phone, position is missing, the
career handler responds with HTTP 400 and the mail-send operation is never
invoked for that request. -/
theorem careers_missing_400_no_send (env : Env) (file : Option UploadedFile)
    (body : Body) (send : Except String Unit)
    (h : file = none ∨ body.name = none ∨ body.email = none
      ∨ body.phone = none ∨ body.position = none) :
    (careersApply env file body send).1.status = 400 ∧
    (careersApply env file body send).2 = [] := by
  cases file with
  | none => simp [careersApply]
  | some f =>
    rcases h with h | h | h | h | h
    · exact absurd h (by simp)
    all_goals simp [careersApply, h, truthy]

/-- Witness for C1 at a concrete request with no attachment. -/
theorem careers_missing_400_no_send_witness :
    (careersApply envEx none bodyFull (Except.ok ())).1.status = 400 ∧
    (careersApply envEx none bodyFull (Except.ok ())).2 = [] :=
  careers_missing_400_no_send envEx none bodyFull (Except.ok ()) (Or.inl rfl)

/-- C2: for every contact request in which any of the fields name, email,
message is missing, the contact handler responds with HTTP 400 and the
mail-send operation is never invoked for that request. -/
theorem contact_missing_400_no_send (env : Env) (body : Body)
    (send : Except String Unit)
    (h : body.name = none ∨ body.email = none ∨ body.message = none) :
    (contactHandler env body send).1.status = 400 ∧
    (contactHandler env body send).2 = [] := by
  rcases h with h | h | h <;> simp [contactHandler, h, truthy]

/-- Witness for C2 at a concrete request with an empty body. -/
theorem contact_missing_400_no_send_witness :
    (contactHandler envEx bodyEmpty (Except.ok ())).1.status = 400 ∧
    (contactHandler envEx bodyEmpty (Except.ok ())).2 = [] :=
  contact_missing_400_no_send envEx bodyEmpty (Except.ok ()) (Or.inl rfl)

/-- C4 counterexample: the input "toString" is outside the enum, yet the
program does not return it unchanged — `map["toString"]` resolves through the
prototype chain to the truthy `Object.prototype.toString` function, which
`|| value` then keeps. -/
theorem formatPosition_toString_counterexample :
    ("toString" : String) ∉ ["chartered_accountant", "articleship", "others"] ∧
    formatPosition ("toString") = JsStringOr.fn ("toString") ∧
    formatPosition ("toString") ≠ JsStringOr.str ("toString") := by
  refine ⟨by decide, rfl, by decide⟩

/-- C4 (amended): `formatPosition` maps the three enum codes to their display
strings; every input outside the enum that names no `Object.prototype`
member comes back unchanged, while a prototype-member name yields that
inherited member instead of the input. -/
theorem formatPosition_enum_and_passthrough :
    formatPosition ("chartered_accountant") = JsStringOr.str ("Chartered Accountant") ∧
    formatPosition ("articleship") = JsStringOr.str ("Articleship") ∧
    formatPosition ("others") = JsStringOr.str ("Others") ∧
    ∀ s : String,
      s ∉ ["chartered_accountant", "articleship", "others"] →
      objectProtoMember s = none →
      formatPosition s = JsStringOr.str s := by
  refine ⟨rfl, rfl, rfl, ?_⟩
  intro s hs hpm
  simp only [List.mem_cons, List.not_mem_nil, or_false, not_or] at hs
  obtain ⟨h1, h2, h3⟩ := hs
  have e1 : (s == "chartered_accountant") = false := beq_eq_false_iff_ne.mpr h1
  have e2 : (s == "articleship") = false := beq_eq_false_iff_ne.mpr h2
  have e3 : (s == "others") = false := beq_eq_false_iff_ne.mpr h3
  simp [formatPosition, mapGet, positionMap, List.lookup, e1, e2, e3, hpm]

/-- Witness for C4 at a concrete unknown code that names no prototype
member. -/
theorem formatPosition_enum_and_passthrough_witness :
    ("senior_audit" : String) ∉ ["chartered_accountant", "articleship", "others"] ∧
    objectProtoMember ("senior_audit") = none ∧
    formatPosition ("senior_audit") = JsStringOr.str ("senior_audit") :=
  ⟨by decide, by decide,
   formatPosition_enum_and_passthrough.2.2.2 ("senior_audit") (by decide) (by decide)⟩

/-- C6 counterexample: a present-but-empty Origin header is not in the
allow-list, yet the `!origin` guard (an empty string is falsy) accepts the
request instead of rejecting it. -/
theorem cors_empty_origin_counterexample :
    ("" : String) ∉ allowedOrigins ∧
    corsOriginCheck (some ("")) = CorsDecision.allow := by
  refine ⟨by decide, rfl⟩

/-- C6 (amended): the origin policy accepts a request that carries no Origin
header (or one that is falsy, i.e. the empty string), and rejects every
request whose non-empty Origin header is not in the static allow-list, with
the policy error message. -/
theorem cors_no_origin_allowed_unlisted_denied (o : String)
    (hne : o ≠ "") (ho : o ∉ allowedOrigins) :
    corsOriginCheck none = CorsDecision.allow ∧
    corsOriginCheck (some ("")) = CorsDecision.allow ∧
    corsOriginCheck (some o) = CorsDecision.deny corsBlockedMsg := by
  refine ⟨rfl, rfl, ?_⟩
  have ht : (o != "") = true := bne_iff_ne.mpr hne
  have hlen : allowedOrigins.indexOf o = allowedOrigins.length :=
    List.indexOf_eq_length.2 ho
  simp [corsOriginCheck, truthy, ht, hlen]

/-- Witness for C6 at a concrete non-empty unlisted origin. -/
theorem cors_no_origin_allowed_unlisted_denied_witness :
    ("https://evil.example" : String) ≠ "" ∧
    ("https://evil.example" : String) ∉ allowedOrigins ∧
    (corsOriginCheck none = CorsDecision.allow ∧
     corsOriginCheck (some ("")) = CorsDecision.allow ∧
     corsOriginCheck (some ("https://evil.example")) =
       CorsDecision.deny corsBlockedMsg) :=
  ⟨by decide, by decide,
   cors_no_origin_allowed_unlisted_denied ("https://evil.example")
     (by decide) (by decide)⟩

/-- C8: every request whose method/path matches none of the registered routes
gets HTTP 404 with success false and a message, and no mail is sent. -/
theorem unmatched_route_404 (env : Env) (now : String) (req : Request)
    (send : Except String Unit)
    (h : matchRoute req.method req.path = RouteMatch.notFound) :
    server env now req send =
      ({ status := 404, success := some false, message := "Endpoint not found",
         error := none, timestamp := none }, []) := by
  simp [server, h]

/-- Witness for C8 at a concrete unmatched request. -/
theorem unmatched_route_404_witness :
    server envEx ("2026-10-11T00:00:00.000Z") reqUnmatched (Except.ok ()) =
      ({ status := 404, success := some false, message := "Endpoint not found",
         error := none, timestamp := none }, []) :=
  unmatched_route_404 envEx ("2026-10-11T00:00:00.000Z") reqUnmatched
    (Except.ok ()) rfl

/-- C9: a required field that is present but the empty string is treated like
a missing field by both handlers: the response is 400 and no send is
attempted. -/
theorem empty_field_like_missing (env : Env) (file : Option UploadedFile)
    (b1 b2 : Body) (send : Except String Unit)
    (h1 : b1.name = some ("") ∨ b1.email = some ("") ∨ b1.phone = some ("")
      ∨ b1.position = some (""))
    (h2 : b2.name = some ("") ∨ b2.email = some ("") ∨ b2.message = some ("")) :
    ((careersApply env file b1 send).1.status = 400 ∧
     (careersApply env file b1 send).2 = []) ∧
    ((contactHandler env b2 send).1.status = 400 ∧
     (contactHandler env b2 send).2 = []) := by
  constructor
  · cases file with
    | none => simp [careersApply]
    | some f => rcases h1 with h | h | h | h <;> simp [careersApply, h, truthy]
  · rcases h2 with h | h | h <;> simp [contactHandler, h, truthy]

/-- Witness for C9 at concrete requests whose name field is the empty
string. -/
theorem empty_field_like_missing_witness :
    ((careersApply envEx (some fileEx) bodyEmptyName (Except.ok ())).1.status = 400 ∧
     (careersApply envEx (some fileEx) bodyEmptyName (Except.ok ())).2 = []) ∧
    ((contactHandler envEx bodyEmptyName (Except.ok ())).1.status = 400 ∧
     (contactHandler envEx bodyEmptyName (Except.ok ())).2 = []) :=
  empty_field_like_missing envEx (some fileEx) bodyEmptyName bodyEmptyName
    (Except.ok ()) (Or.inl rfl) (Or.inl rfl)

/-- C3: a career application with an attachment and all required fields,
whose send succeeds, gets HTTP 200 with success true, exactly one sendMail
invocation, and a single attachment whose content is the uploaded bytes. -/
theorem careers_valid_success_sends_once (env : Env) (f : UploadedFile)
    (body : Body)
    (hn : truthy body.name = true) (he : truthy body.email = true)
    (hp : truthy body.phone = true) (hq : truthy body.position = true) :
    (careersApply env (some f) body (Except.ok ())).1 =
      { status := 200, success := some true,
        message := "Application submitted successfully",
        error := none, timestamp := none } ∧
    (careersApply env (some f) body (Except.ok ())).2 = [careerMail env f body] ∧
    (careerMail env f body).attachments =
      [{ filename := jstr f.originalname ("resume.pdf"), content := f.buffer }] := by
  refine ⟨?_, ?_, rfl⟩ <;> simp [careersApply, hn, he, hp, hq]

/-- Witness for C3 at a concrete valid application. -/
theorem careers_valid_success_sends_once_witness :
    (careersApply envEx (some fileEx) bodyFull (Except.ok ())).1 =
      { status := 200, success := some true,
        message := "Application submitted successfully",
        error := none, timestamp := none } ∧
    (careersApply envEx (some fileEx) bodyFull (Except.ok ())).2 =
      [careerMail envEx fileEx bodyFull] ∧
    (careerMail envEx fileEx bodyFull).attachments =
      [{ filename := jstr fileEx.originalname ("resume.pdf"),
         content := fileEx.buffer }] :=
  careers_valid_success_sends_once envEx fileEx bodyFull rfl rfl rfl rfl

/-- C7 counterexample: with NODE_ENV=development, a failing careers send
produces a 500 response whose `error` field carries the transport error
message — internal detail is exposed, refuting the unconditional claim. -/
theorem send_failure_dev_exposes_error :
    (careersApply envDev (some fileEx) bodyFull (Except.error ("smtp down"))).1 =
      { status := 500, success := some false,
        message := "Failed to process application",
        error := some ("smtp down"), timestamp := none } ∧
    (careersApply envDev (some fileEx) bodyFull (Except.error ("smtp down"))).1.error
      ≠ none := by
  refine ⟨rfl, by decide⟩

/-- C7 (amended): for a validated submission of either kind, a failing send
yields HTTP 500 with the handler's fixed generic message and exactly one
send invocation (no retry); the response carries no internal error detail,
except that the careers handler includes the transport error message when
NODE_ENV=development. -/
theorem send_failure_500_generic (env : Env) (f : UploadedFile) (b1 b2 : Body)
    (e : String)
    (hn1 : truthy b1.name = true) (he1 : truthy b1.email = true)
    (hp1 : truthy b1.phone = true) (hq1 : truthy b1.position = true)
    (hn2 : truthy b2.name = true) (he2 : truthy b2.email = true)
    (hm2 : truthy b2.message = true) :
    careersApply env (some f) b1 (Except.error e) =
      ({ status := 500, success := some false,
         message := "Failed to process application",
         error := if env.nodeEnv == some ("development") then some e else none,
         timestamp := none }, [careerMail env f b1]) ∧
    contactHandler env b2 (Except.error e) =
      ({ status := 500, success := some false,
         message := "Failed to send message", error := none,
         timestamp := none }, [contactMail env b2]) ∧
    (env.nodeEnv ≠ some ("development") →
      (careersApply env (some f) b1 (Except.error e)).1.error = none) := by
  refine ⟨?_, ?_, ?_⟩
  · simp [careersApply, hn1, he1, hp1, hq1]
  · simp [contactHandler, hn2, he2, hm2]
  · intro hdev
    have hb : (env.nodeEnv == some ("development")) = false :=
      beq_eq_false_iff_ne.mpr hdev
    simp [careersApply, hn1, he1, hp1, hq1, hb]

/-- Witness for C7 at concrete validated submissions, a failing send and a
non-development environment. -/
theorem send_failure_500_generic_witness :
    careersApply envEx (some fileEx) bodyFull (Except.error ("smtp down")) =
      ({ status := 500, success := some false,
         message := "Failed to process application", error := none,
         timestamp := none }, [careerMail envEx fileEx bodyFull]) ∧
    contactHandler envEx contactBodyMin (Except.error ("smtp down")) =
      ({ status := 500, success := some false,
         message := "Failed to send message", error := none,
         timestamp := none }, [contactMail envEx contactBodyMin]) ∧
    (careersApply envEx (some fileEx) bodyFull (Except.error ("smtp down"))).1.error
      = none := by
  have h := send_failure_500_generic envEx fileEx bodyFull contactBodyMin
    ("smtp down") rfl rfl rfl rfl rfl rfl rfl
  exact ⟨h.1, h.2.1, h.2.2 (by decide)⟩

/-- C10: for every valid career application, the single attachment's filename
is the uploaded file's original name when present and non-empty and
"resume.pdf" otherwise, and its content is the upload buffer unchanged. -/
theorem career_attachment_name_and_bytes (env : Env) (f : UploadedFile)
    (body : Body) (send : Except String Unit)
    (hn : truthy body.name = true) (he : truthy body.email = true)
    (hp : truthy body.phone = true) (hq : truthy body.position = true) :
    (careersApply env (some f) body send).2 = [careerMail env f body] ∧
    (∀ s : String, f.originalname = some s → s ≠ "" →
      (careerMail env f body).attachments =
        [{ filename := s, content := f.buffer }]) ∧
    ((f.originalname = none ∨ f.originalname = some ("")) →
      (careerMail env f body).attachments =
        [{ filename := "resume.pdf", content := f.buffer }]) := by
  refine ⟨?_, ?_, ?_⟩
  · cases send <;> simp [careersApply, hn, he, hp, hq]
  · intro s hs hne
    have hb : (s == "") = false := beq_eq_false_iff_ne.mpr hne
    simp [careerMail, jstr, hs, hb]
  · rintro (h | h) <;> simp [careerMail, jstr, h]

/-- Witness for C10 at a file with a client name and a file with an empty
name. -/
theorem career_attachment_name_and_bytes_witness :
    (careersApply envEx (some fileEx) bodyFull (Except.ok ())).2 =
      [careerMail envEx fileEx bodyFull] ∧
    (careerMail envEx fileEx bodyFull).attachments =
      [{ filename := "cv.pdf", content := fileEx.buffer }] ∧
    (careerMail envEx fileNoName bodyFull).attachments =
      [{ filename := "resume.pdf", content := fileNoName.buffer }] := by
  have h1 := career_attachment_name_and_bytes envEx fileEx bodyFull
    (Except.ok ()) rfl rfl rfl rfl
  have h2 := career_attachment_name_and_bytes envEx fileNoName bodyFull
    (Except.ok ()) rfl rfl rfl rfl
  exact ⟨h1.1, h1.2.1 ("cv.pdf") rfl (by decide), h2.2.2 (Or.inr rfl)⟩

/-- C5: for every valid contact submission the handler answers 200, sends
exactly once, the mail's reply-to is the submitter's email field; with no
subject the mail subject is the default, and with no preferredContact the
body renders the preferred contact method as Email. -/
theorem contact_mail_replyTo_and_defaults (env : Env) (body : Body)
    (hn : truthy body.name = true) (he : truthy body.email = true)
    (hm : truthy body.message = true) :
    (contactHandler env body (Except.ok ())).1.status = 200 ∧
    (contactHandler env body (Except.ok ())).2 = [contactMail env body] ∧
    (contactMail env body).replyTo = body.email ∧
    (body.subject = none →
      (contactMail env body).subject = "Contact Form: New Inquiry") ∧
    (body.preferredContact = none →
      prefContactEmailHtml.data <:+: (contactMail env body).html.data) := by
  refine ⟨?_, ?_, rfl, ?_, ?_⟩
  · simp [contactHandler, hn, he, hm]
  · simp [contactHandler, hn, he, hm]
  · intro hs
    simp [contactMail, jstr, hs]
  · intro hpc
    have hM : prefContactEmailHtml.data <:+:
        (contactHtmlChunk4 ++ (("Email" : String) ++ contactHtmlChunk5)).data := by
      decide
    have hhtml : (contactMail env body).html =
        (contactHtmlChunk0 ++ (tmplStr body.name ++ (contactHtmlChunk1 ++
          (tmplStr body.email ++ (contactHtmlChunk2 ++
          (jstr body.phone ("Not provided") ++ (contactHtmlChunk3 ++
          jstr body.subject ("General Inquiry")))))))) ++
        ((contactHtmlChunk4 ++ (("Email" : String) ++ contactHtmlChunk5)) ++
         (tmplStr body.message ++ contactHtmlChunk6)) := by
      simp [contactMail, contactHtml, hpc, jstr, string_append_assoc]
    rw [hhtml, string_data_append, string_data_append]
    exact within_append_middle _ _ _ _ hM

/-- Witness for C5 at the spec's concrete contact scenario. -/
theorem contact_mail_replyTo_and_defaults_witness :
    (contactHandler envEx contactBodyMin (Except.ok ())).1.status = 200 ∧
    (contactMail envEx contactBodyMin).replyTo = some ("a@x.com") ∧
    (contactMail envEx contactBodyMin).subject = "Contact Form: New Inquiry" ∧
    prefContactEmailHtml.data <:+: (contactMail envEx contactBodyMin).html.data := by
  have h := contact_mail_replyTo_and_defaults envEx contactBodyMin rfl rfl rfl
  exact ⟨h.1, h.2.2.1.trans rfl, h.2.2.2.1 rfl, h.2.2.2.2 rfl⟩

end RSN
